import Mathlib

/-!
Shallow embedding of `src/vcpkg/commands.upgrade.cpp` (the `vcpkg upgrade`
command driver).  External collaborators (status database, port file
provider, dependency planner, installer, binary cache) are supplied as
fields of an environment record; the control flow of `perform_and_exit`
and its helpers is translated directly from the source.
-/

namespace Vcpkg

/-- The pair (port name, triplet).  `PackageSpec` itself is declared outside
this excerpt; the fields follow the spec's data model. -/
structure PackageSpec where
  name : String
  triplet : String
deriving DecidableEq

/-- Modelled from the spec: "PackageSpec: the pair (port name, triplet).
Totally ordered lexicographically."  The comparison operator of
`PackageSpec` is outside the excerpt, so the order is the lexicographic
order on the (name, triplet) pair. -/
def PackageSpec.key (s : PackageSpec) : Lex (List Char × List Char) :=
  toLex (s.name.data, s.triplet.data)

instance : LinearOrder PackageSpec :=
  LinearOrder.lift' PackageSpec.key (fun a b h => by
    cases a; cases b
    have h2 := congrArg ofLex h
    simp only [PackageSpec.key, ofLex_toLex, Prod.mk.injEq] at h2
    simp [String.ext h2.1, String.ext h2.2])

/-- Modelled from the spec: "Version: the pair (upstream version string,
port revision integer). Equality is structural on both fields."  The
`Version` type itself is outside the excerpt. -/
structure Version where
  text : String
  port_version : Int
deriving DecidableEq

/-- The core paragraph of a port recipe, restricted to the fields read by
`commands.upgrade.cpp` (`raw_version`, `port_version`). -/
structure SourceParagraph where
  raw_version : String
  port_version : Int
deriving DecidableEq

/-- A control file as returned by `provider.get_control_file`, restricted
to the path `source_control_file->core_paragraph` used by the command. -/
structure SourceControlFileAndLocation where
  core_paragraph : SourceParagraph
deriving DecidableEq

/-- The binary paragraph of an installed package, restricted to the fields
read by the command (`version`, `port_version`). -/
structure BinaryParagraph where
  version : String
  port_version : Int
deriving DecidableEq

/-- The status-paragraph view produced by `status_db.find_installed`,
restricted to the `package` field used by the command. -/
structure InstalledPackageView where
  package : BinaryParagraph
deriving DecidableEq

/-- An entry of the result of `Update::find_outdated_packages`; the command
only reads its `spec` field. -/
structure OutdatedPackage where
  spec : PackageSpec
deriving DecidableEq

/-- Abstract token for `vcpkg::Build::BuildPackageOptions`; its contents are
outside the excerpt and the command only copies the default value around. -/
abbrev BuildPackageOptions := Nat

/-- `Install::KeepGoing`. -/
inductive KeepGoing where
  | YES
  | NO
deriving DecidableEq

/-- An install action of an action plan, restricted to the fields this
command touches (the spec and the mutable `build_options`). -/
structure InstallAction where
  spec : PackageSpec
  build_options : BuildPackageOptions
deriving DecidableEq

/-- Modelled from the spec: "ActionPlan: an ordered sequence of install
actions, an ordered sequence of remove actions, and a list of warnings".
The C++ `Dependencies::ActionPlan` is outside the excerpt. -/
structure ActionPlan where
  install_actions : List InstallAction
  remove_actions : List PackageSpec
  warnings : List String
deriving DecidableEq

/-- Modelled from the spec: an action plan is empty when it holds no
actions (`action_plan.empty()` in the source). -/
def ActionPlan.isEmpty (p : ActionPlan) : Bool :=
  p.install_actions.isEmpty && p.remove_actions.isEmpty

/-- Modelled from the spec: per-action outcomes "(success / fail /
cascaded-skip)" recorded by the installer. -/
inductive BuildResult where
  | succeeded
  | failed
  | cascaded_skip
deriving DecidableEq

/-- Modelled from the spec: the summary of per-action outcomes returned by
`Install::perform`; its printing is opaque to this command. -/
structure InstallSummary where
  results : List BuildResult
deriving DecidableEq

/-- The observable output alphabet of the command: one constructor per
distinct `print2`/message site of `perform_and_exit`.  `toUpgradeHeader`
is part of the alphabet so that spec statements about a summary of the
`to_upgrade` bucket can be expressed; the source has no print site for it. -/
inductive OutEvent where
  | manifestModeError
  | bothYesNoError (option : String)
  | allUpToDate (msg : String)
  | upToDateHeader (specs : List PackageSpec)
  | notInstalledHeader (specs : List PackageSpec)
  | noControlFileHeader (specs : List PackageSpec)
  | toUpgradeHeader (specs : List PackageSpec)
  | planWarning (w : String)
  | printPlan (plan : ActionPlan)
  | dryRunAdvisory
  | elapsedTime
  | installSummaryPrinted (s : InstallSummary)
deriving DecidableEq

/-- `OPTION_NO_DRY_RUN`. -/
def OPTION_NO_DRY_RUN : String := "no-dry-run"

/-- `OPTION_KEEP_GOING`. -/
def OPTION_KEEP_GOING : String := "keep-going"

/-- `OPTION_NO_KEEP_GOING`. -/
def OPTION_NO_KEEP_GOING : String := "no-keep-going"

/-- `determine_keep_going`: the `check_exit` on both switches becomes the
`Except.error` carrying the offending option name passed via
`msg::option = OPTION_KEEP_GOING`. -/
def determine_keep_going (keep_going_set no_keep_going_set : Bool) :
    Except String KeepGoing :=
  if keep_going_set && no_keep_going_set then
    .error OPTION_KEEP_GOING
  else if keep_going_set then
    .ok .YES
  else if no_keep_going_set then
    .ok .NO
  else
    .ok .YES

/-- The environment of one run: parsed inputs plus the external
collaborators called by `perform_and_exit`, each at the interface the
source uses. -/
structure UpgradeEnv where
  manifest_mode : Bool
  switches : List String
  /-- `args.command_arguments` after `Input::check_and_get_package_spec`
  (validation is external input sanitization). -/
  command_arguments : List PackageSpec
  /-- `status_db.find_installed`. -/
  find_installed : PackageSpec → Option InstalledPackageView
  /-- `provider.get_control_file`. -/
  get_control_file : String → Option SourceControlFileAndLocation
  /-- result of `Update::find_outdated_packages(provider, status_db)`. -/
  find_outdated_packages : List OutdatedPackage
  /-- `Dependencies::create_upgrade_plan` (external planner). -/
  create_upgrade_plan : List PackageSpec → ActionPlan
  /-- `vcpkg::Build::default_build_package_options`. -/
  default_build_package_options : BuildPackageOptions
  /-- `Install::perform` (external installer), as the summary it returns. -/
  perform_install : ActionPlan → KeepGoing → InstallSummary

/-- The four classification buckets of the spec-classifier loop. -/
structure Buckets where
  not_installed : List PackageSpec
  no_control_file : List PackageSpec
  to_upgrade : List PackageSpec
  up_to_date : List PackageSpec
deriving DecidableEq

/-- State threaded through the classifier loop: the buckets plus the trace
of names passed to `provider.get_control_file` (instrumentation showing
the recipe lookup happens on every iteration). -/
structure ClassifyState where
  buckets : Buckets
  provider_queries : List String
deriving DecidableEq

/-- One iteration of the classifier loop (source lines 127-159): look up
the installed record, look up the control file (unconditionally), push the
spec into the matching buckets, and compare versions only when neither
lookup failed (`skip_version_check`). -/
def classifyStep (env : UpgradeEnv) (st : ClassifyState) (spec : PackageSpec) :
    ClassifyState :=
  let installed_status := env.find_installed spec
  let b1 :=
    if installed_status.isNone then
      { st.buckets with not_installed := st.buckets.not_installed ++ [spec] }
    else st.buckets
  let maybe_control_file := env.get_control_file spec.name
  let queries := st.provider_queries ++ [spec.name]
  let b2 :=
    if maybe_control_file.isNone then
      { b1 with no_control_file := b1.no_control_file ++ [spec] }
    else b1
  match installed_status, maybe_control_file with
  | some installed, some control_file =>
    let control_paragraph := control_file.core_paragraph
    let control_version : Version :=
      ⟨control_paragraph.raw_version, control_paragraph.port_version⟩
    let installed_paragraph := installed.package
    let installed_version : Version :=
      ⟨installed_paragraph.version, installed_paragraph.port_version⟩
    if control_version = installed_version then
      { buckets := { b2 with up_to_date := b2.up_to_date ++ [spec] },
        provider_queries := queries }
    else
      { buckets := { b2 with to_upgrade := b2.to_upgrade ++ [spec] },
        provider_queries := queries }
  | _, _ => { buckets := b2, provider_queries := queries }

/-- The classifier loop over all user-supplied specs. -/
def classifyAll (env : UpgradeEnv) (specs : List PackageSpec) : ClassifyState :=
  specs.foldl (classifyStep env) ⟨⟨[], [], [], []⟩, []⟩

/-- `Util::sort` on a bucket: sorting by the total `PackageSpec` order. -/
def sortSpecs (l : List PackageSpec) : List PackageSpec :=
  List.insertionSort (· ≤ ·) l

/-- Classification followed by the four `Util::sort` calls
(source lines 161-164). -/
def classify (env : UpgradeEnv) (specs : List PackageSpec) : Buckets :=
  let b := (classifyAll env specs).buckets
  { not_installed := sortSpecs b.not_installed
    no_control_file := sortSpecs b.no_control_file
    to_upgrade := sortSpecs b.to_upgrade
    up_to_date := sortSpecs b.up_to_date }

/-- The bucket-summary output block (source lines 166-189): a header event
per non-empty bucket, in source order. -/
def summaryBlocks (b : Buckets) : List OutEvent :=
  (if b.up_to_date.isEmpty then [] else [.upToDateHeader b.up_to_date])
    ++ (if b.not_installed.isEmpty then [] else [.notInstalledHeader b.not_installed])
    ++ (if b.no_control_file.isEmpty then [] else [.noControlFileHeader b.no_control_file])

/-- Process exit status. -/
inductive ExitStatus where
  | success
  | failure
deriving DecidableEq

/-- The observable result of a run: the printed events, the exit status,
whether the external planner / tag-variable loader / installer were
invoked, and the plan as built by the planner (before the build-options
overwrite), when planning was reached. -/
structure RunResult where
  output : List OutEvent
  exit : ExitStatus
  invoked_create_upgrade_plan : Bool
  invoked_load_tag_vars : Bool
  invoked_installer : Bool
  built_plan : Option ActionPlan
deriving DecidableEq

/-- The build-options overwrite loop (source lines 204-208): "Set build
settings for all install actions". -/
def setDefaultBuildOptions (env : UpgradeEnv) (plan : ActionPlan) : ActionPlan :=
  { plan with
    install_actions := plan.install_actions.map
      (fun a => { a with build_options := env.default_build_package_options }) }

/-- Source lines 199-238: the common tail after a plan was produced.
`check_exit(!action_plan.empty())`, warning output, the build-options
overwrite on every install action, `print_plan`, the dry-run gate, then
`load_tag_vars`, `Install::perform`, elapsed time, and the keep-going
conditional summary. -/
def runPlan (env : UpgradeEnv) (keep_going : KeepGoing) (no_dry_run : Bool)
    (pre : List OutEvent) (action_plan : ActionPlan) : RunResult :=
  if action_plan.isEmpty then
    { output := pre, exit := .failure, invoked_create_upgrade_plan := true,
      invoked_load_tag_vars := false, invoked_installer := false,
      built_plan := some action_plan }
  else
    let warnOut := action_plan.warnings.map OutEvent.planWarning
    let plan2 := setDefaultBuildOptions env action_plan
    let out := pre ++ warnOut ++ [.printPlan plan2]
    if !no_dry_run then
      { output := out ++ [.dryRunAdvisory], exit := .failure,
        invoked_create_upgrade_plan := true, invoked_load_tag_vars := false,
        invoked_installer := false, built_plan := some action_plan }
    else
      let summary := env.perform_install plan2 keep_going
      { output := out ++ [.elapsedTime]
          ++ (if keep_going = .YES then [.installSummaryPrinted summary] else []),
        exit := .success, invoked_create_upgrade_plan := true,
        invoked_load_tag_vars := true, invoked_installer := true,
        built_plan := some action_plan }

/-- The whole command driver `perform_and_exit`: manifest-mode rejection,
keep-going resolution, the no-spec outdated scan or the classifier with
its termination policy, then the common plan tail. -/
def perform_and_exit (env : UpgradeEnv) : RunResult :=
  if env.manifest_mode then
    { output := [.manifestModeError], exit := .failure,
      invoked_create_upgrade_plan := false, invoked_load_tag_vars := false,
      invoked_installer := false, built_plan := none }
  else
    let no_dry_run := env.switches.contains OPTION_NO_DRY_RUN
    match determine_keep_going (env.switches.contains OPTION_KEEP_GOING)
        (env.switches.contains OPTION_NO_KEEP_GOING) with
    | .error opt =>
      { output := [.bothYesNoError opt], exit := .failure,
        invoked_create_upgrade_plan := false, invoked_load_tag_vars := false,
        invoked_installer := false, built_plan := none }
    | .ok keep_going =>
      if env.command_arguments.isEmpty then
        if env.find_outdated_packages.isEmpty then
          { output := [.allUpToDate "All installed packages are up-to-date with the local portfiles.\n"],
            exit := .success, invoked_create_upgrade_plan := false,
            invoked_load_tag_vars := false, invoked_installer := false,
            built_plan := none }
        else
          runPlan env keep_going no_dry_run []
            (env.create_upgrade_plan
              (env.find_outdated_packages.map OutdatedPackage.spec))
      else
        let b := classify env env.command_arguments
        let pre := summaryBlocks b
        if b.not_installed.isEmpty && b.no_control_file.isEmpty then
          if b.to_upgrade.isEmpty then
            { output := pre, exit := .success,
              invoked_create_upgrade_plan := false,
              invoked_load_tag_vars := false, invoked_installer := false,
              built_plan := none }
          else
            runPlan env keep_going no_dry_run pre
              (env.create_upgrade_plan b.to_upgrade)
        else
          { output := pre, exit := .failure,
            invoked_create_upgrade_plan := false,
            invoked_load_tag_vars := false, invoked_installer := false,
            built_plan := none }

/-! ### Concrete sample environments (used to evaluate the model) -/

/-- Sample spec: not installed, recipe present. -/
def specA : PackageSpec := ⟨"a", "x64"⟩

/-- Sample spec: installed, recipe present, versions equal. -/
def specB : PackageSpec := ⟨"b", "x64"⟩

/-- Sample spec: installed at 1.0, recipe at 2.0 (versions differ). -/
def specC : PackageSpec := ⟨"c", "x64"⟩

/-- Sample spec: not installed and without a recipe. -/
def specD : PackageSpec := ⟨"d", "x64"⟩

/-- Sample spec: installed at 2.0, recipe regressed to 1.0. -/
def specE : PackageSpec := ⟨"e", "x64"⟩

/-- Sample status database. -/
def demoFindInstalled : PackageSpec → Option InstalledPackageView := fun s =>
  if s = specB then some ⟨⟨"1.0", 0⟩⟩
  else if s = specC then some ⟨⟨"1.0", 0⟩⟩
  else if s = specE then some ⟨⟨"2.0", 0⟩⟩
  else none

/-- Sample port file provider. -/
def demoGetControlFile : String → Option SourceControlFileAndLocation := fun n =>
  if n = "a" then some ⟨⟨"1.0", 0⟩⟩
  else if n = "b" then some ⟨⟨"1.0", 0⟩⟩
  else if n = "c" then some ⟨⟨"2.0", 0⟩⟩
  else if n = "e" then some ⟨⟨"1.0", 0⟩⟩
  else none

/-- A sample environment over the demo database and provider, with an
external planner that emits one install and one remove action per spec
(install actions carrying non-default build options 42) and one warning,
and an installer whose sweep records one failure and one success. -/
def demoEnv (args : List PackageSpec) (sw : List String) : UpgradeEnv :=
  { manifest_mode := false
    switches := sw
    command_arguments := args
    find_installed := demoFindInstalled
    get_control_file := demoGetControlFile
    find_outdated_packages := []
    create_upgrade_plan := fun specs =>
      ⟨specs.map (fun s => ⟨s, 42⟩), specs, ["warn"]⟩
    default_build_package_options := 7
    perform_install := fun _ _ => ⟨[.failed, .succeeded]⟩ }

/-- Run with one not-installed spec and one outdated spec. -/
def env0 : UpgradeEnv := demoEnv [specA, specC] []

/-- Run with a single not-installed, recipe-less spec. -/
def envD1 : UpgradeEnv := demoEnv [specD] []

/-- Run with the same not-installed, recipe-less spec given twice. -/
def envDD : UpgradeEnv := demoEnv [specD, specD] []

/-- Run with a single spec whose recipe regressed to an older version. -/
def envE : UpgradeEnv := demoEnv [specE] []

/-- Dry run (no `--no-dry-run`) over a single outdated spec. -/
def envDry : UpgradeEnv := demoEnv [specC] []

/-- Committed run (`--no-dry-run`) over a single outdated spec. -/
def envExec : UpgradeEnv := demoEnv [specC] [OPTION_NO_DRY_RUN]

/-- Run with no user-supplied specs and nothing outdated. -/
def envScan : UpgradeEnv := demoEnv [] []

/-! ### Characterization of the classifier loop -/

/-- The spec lands in `not_installed`: the installed lookup failed. -/
def notInstalledP (env : UpgradeEnv) (s : PackageSpec) : Bool :=
  (env.find_installed s).isNone

/-- The spec lands in `no_control_file`: the recipe lookup failed. -/
def noControlFileP (env : UpgradeEnv) (s : PackageSpec) : Bool :=
  (env.get_control_file s.name).isNone

/-- The spec lands in `up_to_date`: both lookups succeed and the recipe
version equals the installed version. -/
def upToDateP (env : UpgradeEnv) (s : PackageSpec) : Bool :=
  match env.find_installed s, env.get_control_file s.name with
  | some installed, some control_file =>
    decide ((⟨control_file.core_paragraph.raw_version,
              control_file.core_paragraph.port_version⟩ : Version)
      = ⟨installed.package.version, installed.package.port_version⟩)
  | _, _ => false

/-- The spec lands in `to_upgrade`: both lookups succeed and the recipe
version differs from the installed version. -/
def toUpgradeP (env : UpgradeEnv) (s : PackageSpec) : Bool :=
  match env.find_installed s, env.get_control_file s.name with
  | some installed, some control_file =>
    decide ((⟨control_file.core_paragraph.raw_version,
              control_file.core_paragraph.port_version⟩ : Version)
      ≠ ⟨installed.package.version, installed.package.port_version⟩)
  | _, _ => false

theorem classifyStep_fields (env : UpgradeEnv) (st : ClassifyState)
    (s : PackageSpec) :
    (classifyStep env st s).buckets.not_installed
        = st.buckets.not_installed ++ (if notInstalledP env s then [s] else [])
      ∧ (classifyStep env st s).buckets.no_control_file
        = st.buckets.no_control_file ++ (if noControlFileP env s then [s] else [])
      ∧ (classifyStep env st s).buckets.up_to_date
        = st.buckets.up_to_date ++ (if upToDateP env s then [s] else [])
      ∧ (classifyStep env st s).buckets.to_upgrade
        = st.buckets.to_upgrade ++ (if toUpgradeP env s then [s] else [])
      ∧ (classifyStep env st s).provider_queries
        = st.provider_queries ++ [s.name] := by
  unfold classifyStep notInstalledP noControlFileP upToDateP toUpgradeP
  cases h1 : env.find_installed s <;> cases h2 : env.get_control_file s.name <;>
    simp [h1, h2] <;> split <;> simp_all <;> split <;> simp_all

theorem classifyAll_go (env : UpgradeEnv) (l : List PackageSpec)
    (st : ClassifyState) :
    (l.foldl (classifyStep env) st).buckets.not_installed
        = st.buckets.not_installed ++ l.filter (notInstalledP env)
      ∧ (l.foldl (classifyStep env) st).buckets.no_control_file
        = st.buckets.no_control_file ++ l.filter (noControlFileP env)
      ∧ (l.foldl (classifyStep env) st).buckets.up_to_date
        = st.buckets.up_to_date ++ l.filter (upToDateP env)
      ∧ (l.foldl (classifyStep env) st).buckets.to_upgrade
        = st.buckets.to_upgrade ++ l.filter (toUpgradeP env)
      ∧ (l.foldl (classifyStep env) st).provider_queries
        = st.provider_queries ++ l.map PackageSpec.name := by
  induction l generalizing st with
  | nil => simp
  | cons x xs ih =>
    obtain ⟨s1, s2, s3, s4, s5⟩ := classifyStep_fields env st x
    obtain ⟨i1, i2, i3, i4, i5⟩ := ih (classifyStep env st x)
    refine ⟨?_, ?_, ?_, ?_, ?_⟩ <;>
      simp [List.foldl_cons, i1, i2, i3, i4, i5, s1, s2, s3, s4, s5,
        List.filter_cons] <;> split <;> simp_all

theorem classifyAll_not_installed (env : UpgradeEnv) (l : List PackageSpec) :
    (classifyAll env l).buckets.not_installed = l.filter (notInstalledP env) := by
  simpa [classifyAll] using (classifyAll_go env l ⟨⟨[], [], [], []⟩, []⟩).1

theorem classifyAll_no_control_file (env : UpgradeEnv) (l : List PackageSpec) :
    (classifyAll env l).buckets.no_control_file = l.filter (noControlFileP env) := by
  simpa [classifyAll] using (classifyAll_go env l ⟨⟨[], [], [], []⟩, []⟩).2.1

theorem classifyAll_up_to_date (env : UpgradeEnv) (l : List PackageSpec) :
    (classifyAll env l).buckets.up_to_date = l.filter (upToDateP env) := by
  simpa [classifyAll] using (classifyAll_go env l ⟨⟨[], [], [], []⟩, []⟩).2.2.1

theorem classifyAll_to_upgrade (env : UpgradeEnv) (l : List PackageSpec) :
    (classifyAll env l).buckets.to_upgrade = l.filter (toUpgradeP env) := by
  simpa [classifyAll] using (classifyAll_go env l ⟨⟨[], [], [], []⟩, []⟩).2.2.2.1

theorem classifyAll_queries (env : UpgradeEnv) (l : List PackageSpec) :
    (classifyAll env l).provider_queries = l.map PackageSpec.name := by
  simpa [classifyAll] using (classifyAll_go env l ⟨⟨[], [], [], []⟩, []⟩).2.2.2.2

/-! ### Facts about the bucket sort -/

theorem sortSpecs_perm (l : List PackageSpec) : (sortSpecs l).Perm l :=
  List.perm_insertionSort _ l

theorem sortSpecs_sorted (l : List PackageSpec) :
    (sortSpecs l).Sorted (· ≤ ·) :=
  List.sorted_insertionSort _ l

theorem sortSpecs_eq_of_perm {l1 l2 : List PackageSpec} (h : l1.Perm l2) :
    sortSpecs l1 = sortSpecs l2 :=
  List.eq_of_perm_of_sorted
    (((sortSpecs_perm l1).trans h).trans (sortSpecs_perm l2).symm)
    (sortSpecs_sorted l1) (sortSpecs_sorted l2)

theorem mem_sortSpecs {s : PackageSpec} {l : List PackageSpec} :
    s ∈ sortSpecs l ↔ s ∈ l :=
  (sortSpecs_perm l).mem_iff

theorem classify_not_installed (env : UpgradeEnv) (l : List PackageSpec) :
    (classify env l).not_installed = sortSpecs (l.filter (notInstalledP env)) := by
  simp [classify, classifyAll_not_installed]

theorem classify_no_control_file (env : UpgradeEnv) (l : List PackageSpec) :
    (classify env l).no_control_file = sortSpecs (l.filter (noControlFileP env)) := by
  simp [classify, classifyAll_no_control_file]

theorem classify_up_to_date (env : UpgradeEnv) (l : List PackageSpec) :
    (classify env l).up_to_date = sortSpecs (l.filter (upToDateP env)) := by
  simp [classify, classifyAll_up_to_date]

theorem classify_to_upgrade (env : UpgradeEnv) (l : List PackageSpec) :
    (classify env l).to_upgrade = sortSpecs (l.filter (toUpgradeP env)) := by
  simp [classify, classifyAll_to_upgrade]

/-! ### Structural lemmas about the run -/

theorem buckets_ext {a b : Buckets}
    (h1 : a.not_installed = b.not_installed)
    (h2 : a.no_control_file = b.no_control_file)
    (h3 : a.to_upgrade = b.to_upgrade)
    (h4 : a.up_to_date = b.up_to_date) : a = b := by
  cases a; cases b; simp_all

theorem mem_summaryBlocks {e : OutEvent} {b : Buckets}
    (h : e ∈ summaryBlocks b) :
    (∃ l, e = .upToDateHeader l) ∨ (∃ l, e = .notInstalledHeader l)
      ∨ (∃ l, e = .noControlFileHeader l) := by
  unfold summaryBlocks at h
  rcases List.mem_append.1 h with h2 | h2
  · rcases List.mem_append.1 h2 with h3 | h3
    · left; split at h3 <;> simp_all
    · right; left; split at h3 <;> simp_all
  · right; right; split at h2 <;> simp_all

theorem runPlan_built_plan (env : UpgradeEnv) (kg : KeepGoing)
    (ndr : Bool) (pre : List OutEvent) (plan : ActionPlan) :
    (runPlan env kg ndr pre plan).built_plan = some plan := by
  unfold runPlan
  split
  · rfl
  · split <;> rfl

theorem runPlan_dry (env : UpgradeEnv) (kg : KeepGoing)
    (pre : List OutEvent) (plan : ActionPlan)
    (hne : plan.isEmpty = false) :
    (runPlan env kg false pre plan).exit = .failure
      ∧ OutEvent.dryRunAdvisory ∈ (runPlan env kg false pre plan).output
      ∧ OutEvent.printPlan (setDefaultBuildOptions env plan)
          ∈ (runPlan env kg false pre plan).output
      ∧ (runPlan env kg false pre plan).invoked_installer = false
      ∧ (runPlan env kg false pre plan).invoked_load_tag_vars = false := by
  unfold runPlan
  simp [hne]

theorem runPlan_printPlan (env : UpgradeEnv) (kg : KeepGoing) (ndr : Bool)
    (pre : List OutEvent) (plan : ActionPlan) (q : ActionPlan)
    (hq : OutEvent.printPlan q ∈ (runPlan env kg ndr pre plan).output) :
    OutEvent.printPlan q ∈ pre ∨ q = setDefaultBuildOptions env plan := by
  cases he : plan.isEmpty with
  | true =>
    unfold runPlan at hq
    simp only [he, if_true] at hq
    exact .inl hq
  | false =>
    cases hn : ndr with
    | false =>
      unfold runPlan at hq
      simp [he, hn, List.mem_append, List.mem_map] at hq
      tauto
    | true =>
      cases hkg : kg <;>
        · unfold runPlan at hq
          simp [he, hn, hkg, List.mem_append, List.mem_map] at hq
          tauto

theorem runPlan_exec (env : UpgradeEnv) (kg : KeepGoing) (ndr : Bool)
    (pre : List OutEvent) (plan : ActionPlan)
    (hpre : ∀ s, OutEvent.installSummaryPrinted s ∉ pre)
    (hi : (runPlan env kg ndr pre plan).invoked_installer = true) :
    (runPlan env kg ndr pre plan).exit = .success
      ∧ OutEvent.elapsedTime ∈ (runPlan env kg ndr pre plan).output
      ∧ (kg = .YES → ∃ s, OutEvent.installSummaryPrinted s
          ∈ (runPlan env kg ndr pre plan).output)
      ∧ (kg = .NO → ∀ s, OutEvent.installSummaryPrinted s
          ∉ (runPlan env kg ndr pre plan).output) := by
  cases he : plan.isEmpty with
  | true => unfold runPlan at hi; simp [he] at hi
  | false =>
    cases hn : ndr with
    | false => unfold runPlan at hi; simp [he, hn] at hi
    | true =>
      unfold runPlan
      refine ⟨by simp [he, hn], by simp [he, hn], ?_, ?_⟩
      · intro hkg
        refine ⟨env.perform_install (setDefaultBuildOptions env plan) kg, ?_⟩
        simp [he, hn, hkg]
      · intro hkg s
        simp [he, hn, hkg, List.mem_append, List.mem_map]
        exact fun h => hpre s h

theorem printPlan_not_mem_summaryBlocks (b : Buckets) (q : ActionPlan) :
    OutEvent.printPlan q ∉ summaryBlocks b := by
  intro h
  rcases mem_summaryBlocks h with ⟨l, hl⟩ | ⟨l, hl⟩ | ⟨l, hl⟩ <;>
    exact OutEvent.noConfusion hl

theorem installSummary_not_mem_summaryBlocks (b : Buckets) (s : InstallSummary) :
    OutEvent.installSummaryPrinted s ∉ summaryBlocks b := by
  intro h
  rcases mem_summaryBlocks h with ⟨l, hl⟩ | ⟨l, hl⟩ | ⟨l, hl⟩ <;>
    exact OutEvent.noConfusion hl

/-- Every run either never reaches planning (and then invokes neither the
tag-variable loader nor the installer and prints no plan), or it ends in
the common `runPlan` tail, preceded only by bucket summaries. -/
theorem perform_shape (env : UpgradeEnv) :
    ((perform_and_exit env).built_plan = none
      ∧ (perform_and_exit env).invoked_installer = false
      ∧ (perform_and_exit env).invoked_load_tag_vars = false
      ∧ (∀ q, OutEvent.printPlan q ∉ (perform_and_exit env).output))
    ∨ ∃ kg pre plan,
        determine_keep_going (env.switches.contains OPTION_KEEP_GOING)
            (env.switches.contains OPTION_NO_KEEP_GOING) = .ok kg
        ∧ (∀ q, OutEvent.printPlan q ∉ pre)
        ∧ (∀ s, OutEvent.installSummaryPrinted s ∉ pre)
        ∧ perform_and_exit env
            = runPlan env kg (env.switches.contains OPTION_NO_DRY_RUN) pre plan := by
  simp only [perform_and_exit]
  split
  · left; exact ⟨rfl, rfl, rfl, by simp⟩
  · split
    · left; exact ⟨rfl, rfl, rfl, by simp⟩
    · rename_i kg heq
      split
      · split
        · left; exact ⟨rfl, rfl, rfl, by simp⟩
        · right
          exact ⟨kg, [], _, heq, by simp, by simp, rfl⟩
      · split
        · split
          · left
            exact ⟨rfl, rfl, rfl, fun q => printPlan_not_mem_summaryBlocks _ q⟩
          · right
            exact ⟨kg, summaryBlocks (classify env env.command_arguments), _,
              heq, fun q => printPlan_not_mem_summaryBlocks _ q,
              fun s => installSummary_not_mem_summaryBlocks _ s, rfl⟩
        · left
          exact ⟨rfl, rfl, rfl, fun q => printPlan_not_mem_summaryBlocks _ q⟩

theorem determine_ok_of_not_both {a b : Bool} (h : (a && b) = false) :
    ∃ kg, determine_keep_going a b = .ok kg := by
  cases a <;> cases b <;> simp_all [determine_keep_going]

/-- The exact run results of the two classification exit paths: the
diagnostic failure (some spec not installed or without recipe) and the
nothing-to-upgrade success. -/
theorem perform_classified (env : UpgradeEnv)
    (hm : env.manifest_mode = false)
    (hkg : (env.switches.contains OPTION_KEEP_GOING
        && env.switches.contains OPTION_NO_KEEP_GOING) = false)
    (ha : env.command_arguments ≠ []) :
    (((classify env env.command_arguments).not_installed.isEmpty
        && (classify env env.command_arguments).no_control_file.isEmpty) = false →
      perform_and_exit env
        = { output := summaryBlocks (classify env env.command_arguments),
            exit := .failure, invoked_create_upgrade_plan := false,
            invoked_load_tag_vars := false, invoked_installer := false,
            built_plan := none })
    ∧ (((classify env env.command_arguments).not_installed.isEmpty
          && (classify env env.command_arguments).no_control_file.isEmpty) = true →
        (classify env env.command_arguments).to_upgrade.isEmpty = true →
      perform_and_exit env
        = { output := summaryBlocks (classify env env.command_arguments),
            exit := .success, invoked_create_upgrade_plan := false,
            invoked_load_tag_vars := false, invoked_installer := false,
            built_plan := none }) := by
  obtain ⟨kg, hdet⟩ := determine_ok_of_not_both hkg
  have ha2 : env.command_arguments.isEmpty = false := by
    cases henv : env.command_arguments with
    | nil => exact absurd henv ha
    | cons x xs => simp
  constructor
  · intro hfail
    simp only [perform_and_exit, hm, Bool.false_eq_true, if_false, hdet, ha2,
      hfail, Bool.true_eq_false]
  · intro hok hto
    simp only [perform_and_exit, hm, Bool.false_eq_true, if_false, hdet, ha2,
      hok, hto, if_true]

theorem count_filter_ite {α : Type} [DecidableEq α] (p : α → Bool)
    (l : List α) (a : α) :
    (l.filter p).count a = if p a then l.count a else 0 := by
  induction l with
  | nil => simp
  | cons x xs ih =>
    by_cases hx : x = a
    · subst hx; cases hp : p x <;>
        simp [List.filter_cons, hp, List.count_cons, ih]
    · cases hp : p x <;>
        simp [List.filter_cons, hp, List.count_cons, hx, ih]

theorem bucket_length_sum (env : UpgradeEnv) (l : List PackageSpec) :
    (l.filter (notInstalledP env)).length + (l.filter (noControlFileP env)).length
      + (l.filter (upToDateP env)).length + (l.filter (toUpgradeP env)).length
    = l.length + l.countP (fun x => notInstalledP env x && noControlFileP env x) := by
  induction l with
  | nil => simp
  | cons x xs ih =>
    have hcons : ∀ p : PackageSpec → Bool,
        (List.filter p (x :: xs)).length
          = (if p x then 1 else 0) + (List.filter p xs).length := by
      intro p; cases hp : p x <;> simp [List.filter_cons, hp, Nat.add_comm]
    rw [hcons, hcons, hcons, hcons, List.countP_cons, List.length_cons]
    rcases h1 : env.find_installed x with _ | i <;>
      rcases h2 : env.get_control_file x.name with _ | c
    · have e1 : notInstalledP env x = true := by simp [notInstalledP, h1]
      have e2 : noControlFileP env x = true := by simp [noControlFileP, h2]
      have e3 : upToDateP env x = false := by simp [upToDateP, h1, h2]
      have e4 : toUpgradeP env x = false := by simp [toUpgradeP, h1, h2]
      simp [e1, e2, e3, e4]
      omega
    · have e1 : notInstalledP env x = true := by simp [notInstalledP, h1]
      have e2 : noControlFileP env x = false := by simp [noControlFileP, h2]
      have e3 : upToDateP env x = false := by simp [upToDateP, h1, h2]
      have e4 : toUpgradeP env x = false := by simp [toUpgradeP, h1, h2]
      simp [e1, e2, e3, e4]
      omega
    · have e1 : notInstalledP env x = false := by simp [notInstalledP, h1]
      have e2 : noControlFileP env x = true := by simp [noControlFileP, h2]
      have e3 : upToDateP env x = false := by simp [upToDateP, h1, h2]
      have e4 : toUpgradeP env x = false := by simp [toUpgradeP, h1, h2]
      simp [e1, e2, e3, e4]
      omega
    · have e1 : notInstalledP env x = false := by simp [notInstalledP, h1]
      have e2 : noControlFileP env x = false := by simp [noControlFileP, h2]
      by_cases hv : (⟨c.core_paragraph.raw_version,
            c.core_paragraph.port_version⟩ : Version)
          = ⟨i.package.version, i.package.port_version⟩
      · have e3 : upToDateP env x = true := by simp [upToDateP, h1, h2, hv]
        have e4 : toUpgradeP env x = false := by simp [toUpgradeP, h1, h2, hv]
        simp [e1, e2, e3, e4]
        omega
      · have e3 : upToDateP env x = false := by simp [upToDateP, h1, h2, hv]
        have e4 : toUpgradeP env x = true := by simp [toUpgradeP, h1, h2, hv]
        simp [e1, e2, e3, e4]
        omega

theorem classify_count_not_installed (env : UpgradeEnv) (l : List PackageSpec)
    (s : PackageSpec) :
    (classify env l).not_installed.count s
      = if notInstalledP env s then l.count s else 0 := by
  rw [classify_not_installed, (sortSpecs_perm _).count_eq]
  exact count_filter_ite _ _ _

theorem classify_count_no_control_file (env : UpgradeEnv) (l : List PackageSpec)
    (s : PackageSpec) :
    (classify env l).no_control_file.count s
      = if noControlFileP env s then l.count s else 0 := by
  rw [classify_no_control_file, (sortSpecs_perm _).count_eq]
  exact count_filter_ite _ _ _

theorem classify_count_up_to_date (env : UpgradeEnv) (l : List PackageSpec)
    (s : PackageSpec) :
    (classify env l).up_to_date.count s
      = if upToDateP env s then l.count s else 0 := by
  rw [classify_up_to_date, (sortSpecs_perm _).count_eq]
  exact count_filter_ite _ _ _

theorem classify_count_to_upgrade (env : UpgradeEnv) (l : List PackageSpec)
    (s : PackageSpec) :
    (classify env l).to_upgrade.count s
      = if toUpgradeP env s then l.count s else 0 := by
  rw [classify_to_upgrade, (sortSpecs_perm _).count_eq]
  exact count_filter_ite _ _ _

theorem classify_length_sum (env : UpgradeEnv) (l : List PackageSpec) :
    (classify env l).not_installed.length + (classify env l).no_control_file.length
      + (classify env l).up_to_date.length + (classify env l).to_upgrade.length
    = l.length + l.countP (fun x => notInstalledP env x && noControlFileP env x) := by
  rw [classify_not_installed, classify_no_control_file, classify_up_to_date,
    classify_to_upgrade, (sortSpecs_perm _).length_eq, (sortSpecs_perm _).length_eq,
    (sortSpecs_perm _).length_eq, (sortSpecs_perm _).length_eq]
  exact bucket_length_sum env l

theorem isEmpty_false_of_ne_nil {α : Type} {l : List α} (h : l ≠ []) :
    l.isEmpty = false := by
  cases l with
  | nil => exact absurd rfl h
  | cons x xs => simp

theorem notInstalledHeader_mem_summaryBlocks {b : Buckets}
    (h : b.not_installed.isEmpty = false) :
    OutEvent.notInstalledHeader b.not_installed ∈ summaryBlocks b := by
  unfold summaryBlocks
  simp [h, List.mem_append]

theorem noControlFileHeader_mem_summaryBlocks {b : Buckets}
    (h : b.no_control_file.isEmpty = false) :
    OutEvent.noControlFileHeader b.no_control_file ∈ summaryBlocks b := by
  unfold summaryBlocks
  simp [h, List.mem_append]

theorem upToDateHeader_mem_summaryBlocks {b : Buckets}
    (h : b.up_to_date.isEmpty = false) :
    OutEvent.upToDateHeader b.up_to_date ∈ summaryBlocks b := by
  unfold summaryBlocks
  simp [h, List.mem_append]

/-! ### The claims -/

/-- Claim C1, amended: for a run with at least one user-supplied spec
(manifest mode off, no keep-going switch conflict), if the `not_installed`
or the `no_recipe` bucket is non-empty after classification the command
exits nonzero with its whole output equal to the bucket-summary block
(which prints a summary for each non-empty bucket among `up_to_date`,
`not_installed` and `no_recipe` and never one for `to_upgrade`) and never
invokes `create_upgrade_plan`, even if `to_upgrade` is non-empty; if both
of those buckets are empty and `to_upgrade` is also empty, it exits
success without planning. -/
theorem classifier_termination_policy (env : UpgradeEnv)
    (hm : env.manifest_mode = false)
    (hkg : (env.switches.contains OPTION_KEEP_GOING
        && env.switches.contains OPTION_NO_KEEP_GOING) = false)
    (ha : env.command_arguments ≠ []) :
    (((classify env env.command_arguments).not_installed ≠ []
        ∨ (classify env env.command_arguments).no_control_file ≠ []) →
      (perform_and_exit env).exit = .failure
        ∧ (perform_and_exit env).invoked_create_upgrade_plan = false
        ∧ (perform_and_exit env).output
            = summaryBlocks (classify env env.command_arguments))
    ∧ (((classify env env.command_arguments).not_installed = []
          ∧ (classify env env.command_arguments).no_control_file = []
          ∧ (classify env env.command_arguments).to_upgrade = []) →
      (perform_and_exit env).exit = .success
        ∧ (perform_and_exit env).invoked_create_upgrade_plan = false) := by
  constructor
  · intro hor
    have hfail : ((classify env env.command_arguments).not_installed.isEmpty
        && (classify env env.command_arguments).no_control_file.isEmpty) = false := by
      rcases hor with hor | hor <;> simp [isEmpty_false_of_ne_nil hor]
    rw [(perform_classified env hm hkg ha).1 hfail]
    exact ⟨rfl, rfl, rfl⟩
  · rintro ⟨h1, h2, h3⟩
    have hok : ((classify env env.command_arguments).not_installed.isEmpty
        && (classify env env.command_arguments).no_control_file.isEmpty) = true := by
      simp [h1, h2]
    have hto : (classify env env.command_arguments).to_upgrade.isEmpty = true := by
      simp [h3]
    rw [(perform_classified env hm hkg ha).2 hok hto]
    exact ⟨rfl, rfl⟩

/-- Witness for C1 at the concrete run `env0` (one spec not installed):
the command fails, does not plan, and prints exactly the summary block. -/
theorem classifier_termination_policy_witness :
    (perform_and_exit env0).exit = .failure
      ∧ (perform_and_exit env0).invoked_create_upgrade_plan = false
      ∧ (perform_and_exit env0).output
          = summaryBlocks (classify env0 env0.command_arguments) :=
  (classifier_termination_policy env0 (by decide) (by decide) (by decide)).1
    (.inl (by decide))

/-- Claim C1, counterexample to the claim as stated: in the concrete run
`env0` the `not_installed` bucket is non-empty (so the claim's antecedent
holds) and the `to_upgrade` bucket is non-empty as well, yet the whole
output is a single `not_installed` summary: no summary of the
`up_to_date`, `no_recipe` or `to_upgrade` buckets is printed, so "all four
bucket summaries" are not printed. -/
theorem classifier_termination_policy_cex :
    (classify env0 [specA, specC]).not_installed = [specA]
      ∧ (classify env0 [specA, specC]).to_upgrade = [specC]
      ∧ (perform_and_exit env0).exit = .failure
      ∧ (perform_and_exit env0).output = [.notInstalledHeader [specA]] := by
  decide

/-- Claim C2: the keep-going resolution helper: both switches set is a
fatal error reported with the offending option name (`"keep-going"`);
only `--keep-going` set yields YES; only `--no-keep-going` set yields NO;
neither set yields YES. -/
theorem determine_keep_going_cases :
    determine_keep_going true true = .error OPTION_KEEP_GOING
      ∧ OPTION_KEEP_GOING = "keep-going"
      ∧ determine_keep_going true false = .ok .YES
      ∧ determine_keep_going false true = .ok .NO
      ∧ determine_keep_going false false = .ok .YES :=
  ⟨rfl, rfl, rfl, rfl, rfl⟩

/-- Claim C3: a user-supplied spec that is installed and has a recipe is
classified by structural version equality only: equal versions land in
`up_to_date`, any inequality (including a recipe older than the installed
version) lands in `to_upgrade`; the spec is in neither failure bucket. -/
theorem classifier_compares_by_equality (env : UpgradeEnv)
    (l : List PackageSpec) (spec : PackageSpec)
    (i : InstalledPackageView) (c : SourceControlFileAndLocation)
    (hmem : spec ∈ l)
    (hi : env.find_installed spec = some i)
    (hc : env.get_control_file spec.name = some c) :
    ((⟨c.core_paragraph.raw_version, c.core_paragraph.port_version⟩ : Version)
        = ⟨i.package.version, i.package.port_version⟩ →
      spec ∈ (classify env l).up_to_date ∧ spec ∉ (classify env l).to_upgrade)
    ∧ ((⟨c.core_paragraph.raw_version, c.core_paragraph.port_version⟩ : Version)
        ≠ ⟨i.package.version, i.package.port_version⟩ →
      spec ∈ (classify env l).to_upgrade ∧ spec ∉ (classify env l).up_to_date)
    ∧ spec ∉ (classify env l).not_installed
    ∧ spec ∉ (classify env l).no_control_file := by
  simp only [classify_up_to_date, classify_to_upgrade, classify_not_installed,
    classify_no_control_file, mem_sortSpecs, List.mem_filter]
  refine ⟨?_, ?_, ?_, ?_⟩
  · intro hv
    constructor
    · exact ⟨hmem, by simp [upToDateP, hi, hc, hv]⟩
    · rintro ⟨-, hp⟩
      simp [toUpgradeP, hi, hc, hv] at hp
  · intro hv
    constructor
    · exact ⟨hmem, by simp [toUpgradeP, hi, hc, hv]⟩
    · rintro ⟨-, hp⟩
      simp [upToDateP, hi, hc] at hp
      exact hv (by rw [hp.1, hp.2])
  · rintro ⟨-, hp⟩
    simp [notInstalledP, hi] at hp
  · rintro ⟨-, hp⟩
    simp [noControlFileP, hc] at hp

/-- Witness for C3 at a concrete regression: `specE` is installed at 2.0
while its recipe says 1.0 (older); the versions are unequal so the spec is
classified `to_upgrade`, not `up_to_date`. -/
theorem classifier_compares_by_equality_witness :
    specE ∈ (classify envE [specE]).to_upgrade
      ∧ specE ∉ (classify envE [specE]).up_to_date :=
  (classifier_compares_by_equality envE [specE] specE ⟨⟨"2.0", 0⟩⟩ ⟨⟨"1.0", 0⟩⟩
    (by decide) (by decide) (by decide)).2.1 (by decide)

/-- Claim C4: in a run without `--no-dry-run` whose built plan is
non-empty, the command prints the plan and the rerun advisory and exits
nonzero without invoking the installer or the tag-variable loader (the
installer being the only mutator of the status database in this
command). -/
theorem dry_run_safety (env : UpgradeEnv) (p : ActionPlan)
    (hdr : env.switches.contains OPTION_NO_DRY_RUN = false)
    (hbp : (perform_and_exit env).built_plan = some p)
    (hne : p.isEmpty = false) :
    (perform_and_exit env).exit = .failure
      ∧ OutEvent.dryRunAdvisory ∈ (perform_and_exit env).output
      ∧ OutEvent.printPlan (setDefaultBuildOptions env p)
          ∈ (perform_and_exit env).output
      ∧ (perform_and_exit env).invoked_installer = false
      ∧ (perform_and_exit env).invoked_load_tag_vars = false := by
  rcases perform_shape env with ⟨h1, -, -, -⟩ | ⟨kg, pre, plan, hdet, hpre, hpres, heq⟩
  · rw [h1] at hbp
    exact absurd hbp (by simp)
  · rw [heq] at hbp ⊢
    rw [runPlan_built_plan] at hbp
    obtain rfl := Option.some.inj hbp
    rw [hdr]
    exact runPlan_dry env kg pre _ hne

/-- Witness for C4: the dry run `envDry` builds a non-empty plan, prints
the advisory, exits with failure and does not invoke the installer. -/
theorem dry_run_safety_witness :
    (perform_and_exit envDry).exit = .failure
      ∧ OutEvent.dryRunAdvisory ∈ (perform_and_exit envDry).output
      ∧ (perform_and_exit envDry).invoked_installer = false
      ∧ (perform_and_exit envDry).invoked_load_tag_vars = false :=
  let h := dry_run_safety envDry ⟨[⟨specC, 42⟩], [specC], ["warn"]⟩
    (by decide) (by decide) (by decide)
  ⟨h.1, h.2.1, h.2.2.2.1, h.2.2.2.2⟩

/-- Claim C5: a user-supplied spec with no installed record and no recipe
is added to both the `not_installed` and the `no_recipe` bucket, the
recipe lookup is performed even though the installed lookup already
failed, and both diagnostics are printed. -/
theorem both_diagnostics_emitted (env : UpgradeEnv) (spec : PackageSpec)
    (hmem : spec ∈ env.command_arguments)
    (hi : env.find_installed spec = none)
    (hc : env.get_control_file spec.name = none)
    (hm : env.manifest_mode = false)
    (hkg : (env.switches.contains OPTION_KEEP_GOING
        && env.switches.contains OPTION_NO_KEEP_GOING) = false) :
    spec ∈ (classify env env.command_arguments).not_installed
      ∧ spec ∈ (classify env env.command_arguments).no_control_file
      ∧ spec.name ∈ (classifyAll env env.command_arguments).provider_queries
      ∧ OutEvent.notInstalledHeader
            (classify env env.command_arguments).not_installed
          ∈ (perform_and_exit env).output
      ∧ OutEvent.noControlFileHeader
            (classify env env.command_arguments).no_control_file
          ∈ (perform_and_exit env).output := by
  have m1 : spec ∈ (classify env env.command_arguments).not_installed := by
    rw [classify_not_installed, mem_sortSpecs, List.mem_filter]
    exact ⟨hmem, by simp [notInstalledP, hi]⟩
  have m2 : spec ∈ (classify env env.command_arguments).no_control_file := by
    rw [classify_no_control_file, mem_sortSpecs, List.mem_filter]
    exact ⟨hmem, by simp [noControlFileP, hc]⟩
  have ha : env.command_arguments ≠ [] := by
    intro h
    rw [h] at hmem
    exact absurd hmem (List.not_mem_nil spec)
  have hfail : ((classify env env.command_arguments).not_installed.isEmpty
      && (classify env env.command_arguments).no_control_file.isEmpty) = false := by
    simp [isEmpty_false_of_ne_nil (List.ne_nil_of_mem m1)]
  rw [(perform_classified env hm hkg ha).1 hfail]
  refine ⟨m1, m2, ?_, ?_, ?_⟩
  · rw [classifyAll_queries]
    exact List.mem_map_of_mem PackageSpec.name hmem
  · exact notInstalledHeader_mem_summaryBlocks
      (isEmpty_false_of_ne_nil (List.ne_nil_of_mem m1))
  · exact noControlFileHeader_mem_summaryBlocks
      (isEmpty_false_of_ne_nil (List.ne_nil_of_mem m2))

/-- Witness for C5: `specD` is neither installed nor has a recipe; it
lands in both buckets, its name is passed to the provider, and both
diagnostic headers are printed. -/
theorem both_diagnostics_emitted_witness :
    specD ∈ (classify envD1 envD1.command_arguments).not_installed
      ∧ specD ∈ (classify envD1 envD1.command_arguments).no_control_file
      ∧ specD.name ∈ (classifyAll envD1 envD1.command_arguments).provider_queries
      ∧ OutEvent.notInstalledHeader
            (classify envD1 envD1.command_arguments).not_installed
          ∈ (perform_and_exit envD1).output
      ∧ OutEvent.noControlFileHeader
            (classify envD1 envD1.command_arguments).no_control_file
          ∈ (perform_and_exit envD1).output :=
  both_diagnostics_emitted envD1 specD (by decide) (by decide) (by decide)
    (by decide) (by decide)

/-- Claim C6: each classification bucket is sorted by the total
lexicographic `PackageSpec` order, so two input lists that are
permutations of each other classify to identical ordered buckets. -/
theorem buckets_sorted_perm_invariant (env : UpgradeEnv)
    (l1 l2 : List PackageSpec) (h : l1.Perm l2) :
    classify env l1 = classify env l2
      ∧ (classify env l1).not_installed.Sorted (· ≤ ·)
      ∧ (classify env l1).no_control_file.Sorted (· ≤ ·)
      ∧ (classify env l1).up_to_date.Sorted (· ≤ ·)
      ∧ (classify env l1).to_upgrade.Sorted (· ≤ ·) := by
  refine ⟨buckets_ext ?_ ?_ ?_ ?_, ?_, ?_, ?_, ?_⟩
  · rw [classify_not_installed, classify_not_installed]
    exact sortSpecs_eq_of_perm (h.filter _)
  · rw [classify_no_control_file, classify_no_control_file]
    exact sortSpecs_eq_of_perm (h.filter _)
  · rw [classify_to_upgrade, classify_to_upgrade]
    exact sortSpecs_eq_of_perm (h.filter _)
  · rw [classify_up_to_date, classify_up_to_date]
    exact sortSpecs_eq_of_perm (h.filter _)
  · rw [classify_not_installed]; exact sortSpecs_sorted _
  · rw [classify_no_control_file]; exact sortSpecs_sorted _
  · rw [classify_up_to_date]; exact sortSpecs_sorted _
  · rw [classify_to_upgrade]; exact sortSpecs_sorted _

/-- Witness for C6: the two permuted concrete inputs classify to the same
buckets. -/
theorem buckets_sorted_perm_invariant_witness :
    classify env0 [specC, specA] = classify env0 [specA, specC] :=
  (buckets_sorted_perm_invariant env0 [specC, specA] [specA, specC]
    (by decide)).1

/-- Claim C7: with zero user-supplied specs and an empty outdated scan,
the command prints the all-up-to-date message — whose text contains "All
installed packages are up-to-date" — and exits success without building
or printing any plan. -/
theorem scan_empty_all_up_to_date (env : UpgradeEnv)
    (hm : env.manifest_mode = false)
    (hkg : (env.switches.contains OPTION_KEEP_GOING
        && env.switches.contains OPTION_NO_KEEP_GOING) = false)
    (ha : env.command_arguments = [])
    (ho : env.find_outdated_packages = []) :
    (perform_and_exit env).exit = .success
      ∧ (perform_and_exit env).output
          = [.allUpToDate ("All installed packages are up-to-date"
              ++ " with the local portfiles.\n")]
      ∧ (perform_and_exit env).invoked_create_upgrade_plan = false
      ∧ (perform_and_exit env).built_plan = none := by
  obtain ⟨kg, hdet⟩ := determine_ok_of_not_both hkg
  simp only [perform_and_exit, hm, Bool.false_eq_true, if_false, hdet, ha, ho,
    List.isEmpty_nil, if_true]
  refine ⟨?_, ?_, ?_, ?_⟩ <;> decide

/-- Witness for C7 at the concrete environment with nothing installed and
nothing outdated. -/
theorem scan_empty_all_up_to_date_witness :
    (perform_and_exit envScan).exit = .success
      ∧ (perform_and_exit envScan).output
          = [.allUpToDate ("All installed packages are up-to-date"
              ++ " with the local portfiles.\n")] :=
  let h := scan_empty_all_up_to_date envScan (by decide) (by decide)
    (by decide) (by decide)
  ⟨h.1, h.2.1⟩

/-- Claim C8: any plan the command prints (the same plan it then loads
variables for and executes) has every install action's `build_options`
equal to the system default: the overwrite discards planner-supplied
per-action options. -/
theorem build_options_uniform (env : UpgradeEnv) (p : ActionPlan)
    (a : InstallAction)
    (hp : OutEvent.printPlan p ∈ (perform_and_exit env).output)
    (ha : a ∈ p.install_actions) :
    a.build_options = env.default_build_package_options := by
  rcases perform_shape env with ⟨-, -, -, h4⟩ | ⟨kg, pre, plan, hdet, hpre, hpres, heq⟩
  · exact absurd hp (h4 p)
  · rw [heq] at hp
    rcases runPlan_printPlan env kg _ pre plan p hp with hmem | rfl
    · exact absurd hmem (hpre p)
    · simp only [setDefaultBuildOptions, List.mem_map] at ha
      obtain ⟨b, -, rfl⟩ := ha
      rfl

/-- Witness for C8: in the dry run `envDry` the printed plan's install
action carries the default build options (7), not the planner-assigned
options (42). -/
theorem build_options_uniform_witness :
    (⟨specC, 7⟩ : InstallAction).build_options
      = envDry.default_build_package_options :=
  build_options_uniform envDry ⟨[⟨specC, 7⟩], [specC], ["warn"]⟩ ⟨specC, 7⟩
    (by decide) (by decide)

/-- Claim C9: every run that reaches execution exits success (even when
the sweep recorded failures), prints the total elapsed time, and prints
the per-action outcome summary exactly when keep-going resolved to YES. -/
theorem executor_driver_tail (env : UpgradeEnv)
    (hi : (perform_and_exit env).invoked_installer = true) :
    (perform_and_exit env).exit = .success
      ∧ OutEvent.elapsedTime ∈ (perform_and_exit env).output
      ∧ (determine_keep_going (env.switches.contains OPTION_KEEP_GOING)
            (env.switches.contains OPTION_NO_KEEP_GOING) = .ok .YES →
          ∃ s, OutEvent.installSummaryPrinted s ∈ (perform_and_exit env).output)
      ∧ (determine_keep_going (env.switches.contains OPTION_KEEP_GOING)
            (env.switches.contains OPTION_NO_KEEP_GOING) = .ok .NO →
          ∀ s, OutEvent.installSummaryPrinted s ∉ (perform_and_exit env).output) := by
  rcases perform_shape env with ⟨-, h2, -, -⟩ | ⟨kg, pre, plan, hdet, hpre, hpres, heq⟩
  · rw [h2] at hi
    exact absurd hi (by simp)
  · rw [heq] at hi ⊢
    obtain ⟨he, ht, hyes, hno⟩ := runPlan_exec env kg _ pre plan hpres hi
    refine ⟨he, ht, ?_, ?_⟩
    · intro hY
      rw [hdet] at hY
      injection hY with hkg
      exact hyes hkg
    · intro hN
      rw [hdet] at hN
      injection hN with hkg
      exact hno hkg

/-- Witness for C9: the committed run `envExec` reaches execution, its
installer sweep records a failure, and the command still exits success,
printing elapsed time and the summary (keep-going defaulted to YES). -/
theorem executor_driver_tail_witness :
    (perform_and_exit envExec).exit = .success
      ∧ OutEvent.elapsedTime ∈ (perform_and_exit envExec).output
      ∧ OutEvent.installSummaryPrinted ⟨[.failed, .succeeded]⟩
          ∈ (perform_and_exit envExec).output :=
  let h := executor_driver_tail envExec (by decide)
  ⟨h.1, h.2.1, by decide⟩

/-- Claim C10, amended: duplicated specs are classified independently —
each occurrence contributes one entry to every bucket the spec belongs
to, so a spec occurring more than once appears with its full input
multiplicity in each of its buckets; the buckets cover the input as a
multiset, exceeding it by exactly one entry per occurrence of a spec that
is both not installed and recipe-less (a strict partition exactly when no
such spec occurs). -/
theorem duplicate_occurrences_counts (env : UpgradeEnv)
    (l : List PackageSpec) (s : PackageSpec)
    (hdup : 1 < l.count s) :
    ((classify env l).not_installed.count s
        = if notInstalledP env s then l.count s else 0)
      ∧ ((classify env l).no_control_file.count s
        = if noControlFileP env s then l.count s else 0)
      ∧ ((classify env l).up_to_date.count s
        = if upToDateP env s then l.count s else 0)
      ∧ ((classify env l).to_upgrade.count s
        = if toUpgradeP env s then l.count s else 0)
      ∧ (notInstalledP env s = true → 1 < (classify env l).not_installed.count s)
      ∧ ((classify env l).not_installed.length
          + (classify env l).no_control_file.length
          + (classify env l).up_to_date.length
          + (classify env l).to_upgrade.length
        = l.length + l.countP (fun x => notInstalledP env x && noControlFileP env x)) := by
  refine ⟨classify_count_not_installed env l s, classify_count_no_control_file env l s,
    classify_count_up_to_date env l s, classify_count_to_upgrade env l s, ?_,
    classify_length_sum env l⟩
  intro hni
  rw [classify_count_not_installed env l s, if_pos hni]
  exact hdup

/-- Witness for C10 at the duplicated input: both occurrences of `specD`
appear in its bucket. -/
theorem duplicate_occurrences_counts_witness :
    ((classify envDD [specD, specD]).not_installed.count specD
        = if notInstalledP envDD specD
          then ([specD, specD] : List PackageSpec).count specD else 0)
      ∧ 1 < (classify envDD [specD, specD]).not_installed.count specD :=
  let h := duplicate_occurrences_counts envDD [specD, specD] specD (by decide)
  ⟨h.1, h.2.2.2.2.1 (by decide)⟩

/-- Claim C10, counterexample to "the buckets partition the input as a
multiset": the duplicated spec `specD` is both not installed and
recipe-less, so the four buckets hold four entries for a two-element
input, strictly more than a partition allows. -/
theorem duplicate_partition_cex :
    (classify envDD [specD, specD]).not_installed = [specD, specD]
      ∧ (classify envDD [specD, specD]).no_control_file = [specD, specD]
      ∧ (classify envDD [specD, specD]).not_installed.length
          + (classify envDD [specD, specD]).no_control_file.length
          + (classify envDD [specD, specD]).up_to_date.length
          + (classify envDD [specD, specD]).to_upgrade.length = 4
      ∧ ([specD, specD] : List PackageSpec).length = 2 := by
  decide

end Vcpkg
